import Mathlib

/-!
Shallow embedding of the single-policy annuity projection model
(`src/model.py`) and proofs of the specified properties.

The Python source defines a family of memoized, time-indexed series over
an integer month index `t`.  Each `@variable()` function becomes a pure
Lean function of the policy record, the assumption set, and `t`; the
memoizing evaluator is semantically transparent (each series is a pure
function of its inputs), so it needs no explicit model.  Real-valued
quantities are modelled over `ℝ` with exact arithmetic.
-/

open Finset

/-- Policy record (`policy.get(...)` fields in `src/model.py`). -/
structure Policy where
  age_at_entry : ℕ
  gender : ℤ
  initial_guarantee_term : ℤ
  initial_annuity : ℝ
  escalation_type : ℤ
  escalation_rate : ℝ
  annuity_payment_frequency : ℕ
  duration_IF : ℕ

/-- Assumption set (`assumption[...]` lookups in `src/model.py`).
Tables are modelled as total lookup functions: `mortality_base_table`
is keyed by integer age and gender string, `mortality_overlay` by
product and gender string, `inflation_forward` and
`yield_curve_forward` by future month index. -/
structure Assumptions where
  mortality_base_table : ℕ → String → ℝ
  mortality_overlay : String → String → ℝ
  max_mortality_age : ℕ
  base_renewal_expense : ℝ
  renewal_expense_inflation_margin : ℝ
  inflation_forward : ℕ → ℝ
  yield_curve_forward : ℕ → ℝ
  investment_expense_rate : ℝ

/-- Gender key used in assumption-table lookups:
`("male" if gender() == 0 else "female")`. -/
def genderStr (P : Policy) : String :=
  if P.gender = 0 then "male" else "female"

/-- `mortality_overlay_factor()`:
`assumption["mortality_overlay"].get_value("annuity", gender string)`. -/
def mortality_overlay_factor (P : Policy) (A : Assumptions) : ℝ :=
  A.mortality_overlay "annuity" (genderStr P)

/-- `initial_annuity_per_payment_period()`:
`initial_annuity() / annuity_payment_frequency()`. -/
noncomputable def initial_annuity_per_payment_period (P : Policy) : ℝ :=
  P.initial_annuity / (P.annuity_payment_frequency : ℝ)

/-- Replace the mortality-overlay table of an assumption set, all other
fields unchanged (used to state overlay-independence). -/
def withOverlay (A : Assumptions) (f : String → String → ℝ) : Assumptions :=
  ⟨A.mortality_base_table, f, A.max_mortality_age, A.base_renewal_expense,
    A.renewal_expense_inflation_margin, A.inflation_forward,
    A.yield_curve_forward, A.investment_expense_rate⟩

/-- `current_age(t)`: `age_at_entry + (duration_IF + t)/12` truncated to an
integer for `t < 12`, and `current_age(t-12) + 1` for `t ≥ 12`.  All
quantities are nonnegative integers, so the Python float truncation is
Nat division. -/
def current_age (P : Policy) (t : ℕ) : ℕ :=
  if t < 12 then P.age_at_entry + (P.duration_IF + t) / 12
  else current_age P (t - 12) + 1
termination_by t
decreasing_by omega

/-- `death_rate(t)`: short-circuits to `death_rate(t-1)` when the age is
unchanged; otherwise, below the maximum mortality age, converts the
annual table rate to a monthly rate `1 - (1 - qx)^(1/12)`, applies the
overlay factor and caps at `1.0`; beyond the maximum mortality age the
rate is `1.0`. -/
noncomputable def death_rate (P : Policy) (A : Assumptions) (t : ℕ) : ℝ :=
  if h : t ≠ 0 ∧ current_age P t = current_age P (t - 1) then
    death_rate P A (t - 1)
  else if current_age P t ≤ A.max_mortality_age then
    min 1 ((1 - (1 - A.mortality_base_table (current_age P t) (genderStr P)) ^
      ((1 : ℝ) / 12)) * mortality_overlay_factor P A)
  else 1
termination_by t
decreasing_by omega

/-- `expected_number_of_policies_IF(t)`: `1.0` at `t = 0`, then the
previous value times the survival factor `1 - death_rate(t-1)`. -/
noncomputable def expected_number_of_policies_IF
    (P : Policy) (A : Assumptions) : ℕ → ℝ
  | 0 => 1
  | t + 1 =>
      expected_number_of_policies_IF P A t * (1 - death_rate P A t)

/-- `within_guarantee_period(t)`: forced to `0` once the flag was `0` at
`t-1`, otherwise `1` exactly when `duration_IF + t` is below the initial
guarantee term. -/
def within_guarantee_period (P : Policy) : ℕ → ℤ
  | 0 =>
      if ((P.duration_IF : ℤ) + 0 < P.initial_guarantee_term) then 1 else 0
  | t + 1 =>
      if within_guarantee_period P t = 0 then 0
      else if ((P.duration_IF : ℤ) + (t + 1 : ℕ) < P.initial_guarantee_term)
        then 1 else 0

/-- `within_guarantee_period_array()`: the precomputed list
`[int((duration_IF + t) < initial_guarantee_term) for t in
range(projection_length + 1)]`. -/
def within_guarantee_period_array (P : Policy) (projection_length : ℕ) :
    List ℤ :=
  (List.range (projection_length + 1)).map
    (fun (t : ℕ) => if ((P.duration_IF : ℤ) + (t : ℤ) < P.initial_guarantee_term)
      then 1 else 0)

/-- `annuity_payment_per_policy(t)`: returns `0` off payment months;
on payment months branches on `escalation_type` (0 = none, 1 = fixed,
2 = inflation-linked) and otherwise raises
`ValueError(f"Unsupported escalation_type: ...")`, modelled as
`Except.error`. -/
noncomputable def annuity_payment_per_policy
    (P : Policy) (A : Assumptions) (t : ℕ) : Except String ℝ :=
  if (P.duration_IF + t) % (12 / P.annuity_payment_frequency) ≠ 0 then
    Except.ok 0
  else if P.escalation_type = 0 then
    Except.ok (P.initial_annuity / (P.annuity_payment_frequency : ℝ))
  else if P.escalation_type = 1 then
    if _h : t < 12 then Except.ok (initial_annuity_per_payment_period P)
    else (annuity_payment_per_policy P A (t - 12)).map
      (fun p => p * (1 + P.escalation_rate))
  else if P.escalation_type = 2 then
    if _h : t < 12 then Except.ok (initial_annuity_per_payment_period P)
    else (annuity_payment_per_policy P A (t - 12)).map
      (fun p => p * (1 + A.inflation_forward (t - 12)))
  else
    Except.error ("Unsupported escalation_type: " ++ toString P.escalation_type)
termination_by t
decreasing_by all_goals omega

/-- The numeric value produced by a successful evaluation of
`annuity_payment_per_policy(t)`.  The unsupported-configuration arm
(which raises in the source) is given the junk value `0` here; the
lemma `annuity_payment_per_policy_eq_ok` shows this function agrees
with the exact `Except`-valued embedding on every supported
`escalation_type`, which is the only regime in which downstream series
are defined. -/
noncomputable def annuity_payment_value
    (P : Policy) (A : Assumptions) (t : ℕ) : ℝ :=
  if (P.duration_IF + t) % (12 / P.annuity_payment_frequency) ≠ 0 then 0
  else if P.escalation_type = 0 then
    P.initial_annuity / (P.annuity_payment_frequency : ℝ)
  else if P.escalation_type = 1 then
    if _h : t < 12 then initial_annuity_per_payment_period P
    else annuity_payment_value P A (t - 12) * (1 + P.escalation_rate)
  else if P.escalation_type = 2 then
    if _h : t < 12 then initial_annuity_per_payment_period P
    else annuity_payment_value P A (t - 12) * (1 + A.inflation_forward (t - 12))
  else 0
termination_by t
decreasing_by all_goals omega

/-- `expected_annuity_payment(t)`: the raw per-policy payment inside the
guarantee period, otherwise weighted by the expected number of policies
in force. -/
noncomputable def expected_annuity_payment
    (P : Policy) (A : Assumptions) (t : ℕ) : ℝ :=
  if within_guarantee_period P t ≠ 0 then annuity_payment_value P A t
  else annuity_payment_value P A t * expected_number_of_policies_IF P A t

/-- `renewal_expense_per_policy(t)`: paid on anniversary months only; the
base expense for `t < 12`, thereafter escalated by inflation plus the
renewal-expense inflation margin. -/
noncomputable def renewal_expense_per_policy
    (P : Policy) (A : Assumptions) (t : ℕ) : ℝ :=
  if (P.duration_IF + t) % 12 ≠ 0 then 0
  else if _h : t < 12 then A.base_renewal_expense
  else renewal_expense_per_policy P A (t - 12) *
    (1 + A.inflation_forward (t - 12) + A.renewal_expense_inflation_margin)
termination_by t
decreasing_by omega

/-- `expected_renewal_expense_payment(t)`. -/
noncomputable def expected_renewal_expense_payment
    (P : Policy) (A : Assumptions) (t : ℕ) : ℝ :=
  renewal_expense_per_policy P A t * expected_number_of_policies_IF P A t

/-- Modelled from the spec: the external `cashflower.discount` primitive
(imported, not defined, in `src/model.py`), per the §6 contract:
`present_value_series[t] = Σ_{s ≥ t} cash_flow[s] / Π_{k=t..s} df[k]`
over a series of length `T + 1`. -/
noncomputable def discount (cash_flow df : ℕ → ℝ) (T t : ℕ) : ℝ :=
  ∑ s in Finset.Icc t T, cash_flow s / ∏ k in Finset.Icc t s, df k

/-- `discount_rate()` entry at `t`:
`(1 + yield_curve_forward(t))^(1/12)`. -/
noncomputable def discount_rate (A : Assumptions) (t : ℕ) : ℝ :=
  (1 + A.yield_curve_forward t) ^ ((1 : ℝ) / 12)

/-- `EPV_annuity_benefit()`. -/
noncomputable def EPV_annuity_benefit
    (P : Policy) (A : Assumptions) (T t : ℕ) : ℝ :=
  discount (expected_annuity_payment P A) (discount_rate A) T t

/-- `EPV_renewal_expenses()`. -/
noncomputable def EPV_renewal_expenses
    (P : Policy) (A : Assumptions) (T t : ℕ) : ℝ :=
  discount (expected_renewal_expense_payment P A) (discount_rate A) T t

/-- `EPV_liability_gross()`: `EPV_annuity_benefit + EPV_renewal_expenses`
(elementwise). -/
noncomputable def EPV_liability_gross
    (P : Policy) (A : Assumptions) (T t : ℕ) : ℝ :=
  EPV_annuity_benefit P A T t + EPV_renewal_expenses P A T t

/-- `investment_expense_payment(t)`:
`EPV_liability_gross(t) * investment_expense_rate`. -/
noncomputable def investment_expense_payment
    (P : Policy) (A : Assumptions) (T t : ℕ) : ℝ :=
  EPV_liability_gross P A T t * A.investment_expense_rate

/-- `EPV_investment_expenses()`. -/
noncomputable def EPV_investment_expenses
    (P : Policy) (A : Assumptions) (T t : ℕ) : ℝ :=
  discount (investment_expense_payment P A T) (discount_rate A) T t

/-- `EPV_total_expenses()`: `EPV_renewal_expenses + EPV_investment_expenses`
(elementwise). -/
noncomputable def EPV_total_expenses
    (P : Policy) (A : Assumptions) (T t : ℕ) : ℝ :=
  EPV_renewal_expenses P A T t + EPV_investment_expenses P A T t

/-- `EPV_liability()`: `EPV_annuity_benefit + EPV_total_expenses`
(elementwise). -/
noncomputable def EPV_liability
    (P : Policy) (A : Assumptions) (T t : ℕ) : ℝ :=
  EPV_annuity_benefit P A T t + EPV_total_expenses P A T t

/-- `liability()`: `EPV_liability(0)`. -/
noncomputable def liability (P : Policy) (A : Assumptions) (T : ℕ) : ℝ :=
  EPV_liability P A T 0

/-- A concrete policy used to instantiate theorems: age at entry 65,
gender 0 (male), guarantee term 24 months, annual annuity 1200, fixed
escalation (type 1) at rate 0.03, annual payments (frequency 1), zero
elapsed duration. -/
noncomputable def examplePolicy : Policy :=
  ⟨65, 0, 24, 1200, 1, 0.03, 1, 0⟩

/-- The same policy with the unsupported `escalation_type = 3`. -/
noncomputable def unsupportedPolicy : Policy :=
  ⟨65, 0, 24, 1200, 3, 0.03, 1, 0⟩

/-- A concrete assumption set used to instantiate theorems: every annual
mortality rate 1/2, overlay factor 1, maximum mortality age 120, base
renewal expense 50, inflation margin 0.01, flat inflation 0.02, flat
yield 0.04, investment expense rate 0.003. -/
noncomputable def exampleAssumptions : Assumptions :=
  ⟨fun _ _ => 1 / 2, fun _ _ => 1, 120, 50, 0.01,
    fun _ => 0.02, fun _ => 0.04, 0.003⟩

/-! ### Helper lemmas -/

/-- Closed form for the `current_age` recurrence. -/
theorem current_age_closed (P : Policy) (t : ℕ) :
    current_age P t = P.age_at_entry + (P.duration_IF + t) / 12 := by
  induction t using Nat.strong_induction_on with
  | _ t ih =>
    rw [current_age]
    split
    · rfl
    · rw [ih (t - 12) (by omega)]
      omega

/-- The mortality rate never exceeds `1`. -/
theorem death_rate_le_one (P : Policy) (A : Assumptions) (t : ℕ) :
    death_rate P A t ≤ 1 := by
  induction t using Nat.strong_induction_on with
  | _ t ih =>
    rw [death_rate]
    split
    · exact ih _ (by omega)
    · split
      · exact min_le_left _ _
      · exact le_refl 1

/-- With a mortality table valued in `[0,1]` and a nonnegative overlay
factor, the mortality rate is nonnegative. -/
theorem death_rate_nonneg (P : Policy) (A : Assumptions)
    (hq : ∀ a g, 0 ≤ A.mortality_base_table a g ∧
      A.mortality_base_table a g ≤ 1)
    (hov : 0 ≤ mortality_overlay_factor P A) (t : ℕ) :
    0 ≤ death_rate P A t := by
  induction t using Nat.strong_induction_on with
  | _ t ih =>
    rw [death_rate]
    split
    · exact ih _ (by omega)
    · split
      · have h0 := (hq (current_age P t) (genderStr P)).1
        have h1 := (hq (current_age P t) (genderStr P)).2
        have hb0 : (0 : ℝ) ≤
            1 - A.mortality_base_table (current_age P t) (genderStr P) := by
          linarith
        have hb1 :
            1 - A.mortality_base_table (current_age P t) (genderStr P) ≤ 1 := by
          linarith
        have hpow1 :
            (1 - A.mortality_base_table (current_age P t) (genderStr P)) ^
              ((1 : ℝ) / 12) ≤ 1 :=
          Real.rpow_le_one hb0 hb1 (by norm_num)
        exact le_min (by norm_num) (mul_nonneg (by linarith) hov)
      · norm_num

/-- Beyond the maximum mortality age the rate is `1`, for any assumption
set. -/
theorem death_rate_eq_one (P : Policy) (A : Assumptions) :
    ∀ t, A.max_mortality_age < current_age P t → death_rate P A t = 1 := by
  intro t
  induction t using Nat.strong_induction_on with
  | _ t ih =>
    intro h
    rw [death_rate]
    split
    · next hc => exact ih (t - 1) (by omega) (hc.2 ▸ h)
    · split
      · next hle => omega
      · rfl

/-- At or below the maximum mortality age, the same-age short-circuit is
transparent: `death_rate(t)` always equals the direct recomputation at
the current age. -/
theorem death_rate_direct (P : Policy) (A : Assumptions) :
    ∀ t, current_age P t ≤ A.max_mortality_age →
      death_rate P A t =
        min 1 ((1 - (1 - A.mortality_base_table (current_age P t)
          (genderStr P)) ^ ((1 : ℝ) / 12)) * mortality_overlay_factor P A) := by
  intro t
  induction t using Nat.strong_induction_on with
  | _ t ih =>
    intro h
    rw [death_rate]
    split
    · next hc =>
      rw [ih (t - 1) (by omega) (hc.2 ▸ h), ← hc.2]
    · simp [h]

/-- The in-force expectation stays in `[0,1]`. -/
theorem expected_policies_bounds (P : Policy) (A : Assumptions)
    (hq : ∀ a g, 0 ≤ A.mortality_base_table a g ∧
      A.mortality_base_table a g ≤ 1)
    (hov : 0 ≤ mortality_overlay_factor P A) :
    ∀ t, 0 ≤ expected_number_of_policies_IF P A t ∧
      expected_number_of_policies_IF P A t ≤ 1 := by
  intro t
  induction t with
  | zero => norm_num [expected_number_of_policies_IF]
  | succ t ih =>
    have hd0 := death_rate_nonneg P A hq hov t
    have hd1 := death_rate_le_one P A t
    rw [expected_number_of_policies_IF]
    constructor
    · exact mul_nonneg ih.1 (by linarith)
    · exact mul_le_one₀ ih.2 (by linarith) (by linarith)

/-- The guard in the guarantee-period recurrence never fires: the flag
always equals the raw duration comparison. -/
theorem within_guarantee_period_eq (P : Policy) :
    ∀ t, within_guarantee_period P t =
      if ((P.duration_IF : ℤ) + t < P.initial_guarantee_term) then 1 else 0 := by
  intro t
  induction t with
  | zero => rfl
  | succ t ih =>
    rw [within_guarantee_period, ih]
    by_cases hr : ((P.duration_IF : ℤ) + t < P.initial_guarantee_term)
    · simp [hr]
    · simp [hr]
      split <;> omega

/-- On every supported `escalation_type`, the `Except`-valued embedding
succeeds and returns exactly `annuity_payment_value`. -/
theorem annuity_payment_per_policy_eq_ok (P : Policy) (A : Assumptions)
    (he : P.escalation_type = 0 ∨ P.escalation_type = 1 ∨
      P.escalation_type = 2) :
    ∀ t, annuity_payment_per_policy P A t =
      Except.ok (annuity_payment_value P A t) := by
  intro t
  induction t using Nat.strong_induction_on with
  | _ t ih =>
    rw [annuity_payment_per_policy, annuity_payment_value]
    split_ifs with h1 h2 h3 h4 h5 h6 <;>
      first
        | rfl
        | (rw [ih (t - 12) (by omega)]; rfl)
        | (rcases he with h | h | h <;> simp_all)

/-! ### Claims -/

/-- C1: for a mortality table valued in `[0,1]` and a nonnegative overlay
factor (the input-boundary validity conditions of §7), `death_rate(t)`
lies in `[0,1]` for every `t`, and equals `1.0` whenever
`current_age(t)` exceeds `max_mortality_age`, regardless of the overlay
table. -/
theorem C1_death_rate_bounds (P : Policy) (A : Assumptions)
    (hq : ∀ a g, 0 ≤ A.mortality_base_table a g ∧
      A.mortality_base_table a g ≤ 1)
    (hov : 0 ≤ mortality_overlay_factor P A) (t : ℕ) :
    0 ≤ death_rate P A t ∧ death_rate P A t ≤ 1 ∧
      (A.max_mortality_age < current_age P t →
        ∀ f, death_rate P (withOverlay A f) t = 1) :=
  ⟨death_rate_nonneg P A hq hov t, death_rate_le_one P A t,
    fun h f => death_rate_eq_one P (withOverlay A f) t h⟩

/-- C1 witness: the hypotheses hold and the conclusion is produced at a
concrete policy, assumption set, and month. -/
theorem C1_witness :
    ((∀ a g, 0 ≤ exampleAssumptions.mortality_base_table a g ∧
        exampleAssumptions.mortality_base_table a g ≤ 1) ∧
      0 ≤ mortality_overlay_factor examplePolicy exampleAssumptions) ∧
    (0 ≤ death_rate examplePolicy exampleAssumptions 5 ∧
      death_rate examplePolicy exampleAssumptions 5 ≤ 1 ∧
      (exampleAssumptions.max_mortality_age < current_age examplePolicy 5 →
        ∀ f, death_rate examplePolicy (withOverlay exampleAssumptions f) 5 = 1)) := by
  have hq : ∀ a g, 0 ≤ exampleAssumptions.mortality_base_table a g ∧
      exampleAssumptions.mortality_base_table a g ≤ 1 := by
    intro a g
    constructor <;> norm_num [exampleAssumptions]
  have hov : 0 ≤ mortality_overlay_factor examplePolicy exampleAssumptions := by
    norm_num [mortality_overlay_factor, exampleAssumptions]
  exact ⟨⟨hq, hov⟩,
    C1_death_rate_bounds examplePolicy exampleAssumptions hq hov 5⟩

/-- C2: under the same input-validity conditions,
`expected_number_of_policies_IF(0) = 1.0` exactly, the series is
non-increasing, and it stays in `[0,1]`. -/
theorem C2_survivorship (P : Policy) (A : Assumptions)
    (hq : ∀ a g, 0 ≤ A.mortality_base_table a g ∧
      A.mortality_base_table a g ≤ 1)
    (hov : 0 ≤ mortality_overlay_factor P A) :
    expected_number_of_policies_IF P A 0 = 1 ∧
    ∀ t, expected_number_of_policies_IF P A (t + 1) ≤
        expected_number_of_policies_IF P A t ∧
      0 ≤ expected_number_of_policies_IF P A t ∧
      expected_number_of_policies_IF P A t ≤ 1 := by
  refine ⟨rfl, fun t => ?_⟩
  have hb := expected_policies_bounds P A hq hov t
  have hd0 := death_rate_nonneg P A hq hov t
  refine ⟨?_, hb⟩
  rw [expected_number_of_policies_IF]
  calc expected_number_of_policies_IF P A t * (1 - death_rate P A t) ≤
      expected_number_of_policies_IF P A t * 1 :=
        mul_le_mul_of_nonneg_left (by linarith) hb.1
    _ = expected_number_of_policies_IF P A t := mul_one _

/-- C2 witness: the hypotheses hold and one non-increasing step with its
bounds is produced at a concrete policy, assumption set, and month. -/
theorem C2_witness :
    ((∀ a g, 0 ≤ exampleAssumptions.mortality_base_table a g ∧
        exampleAssumptions.mortality_base_table a g ≤ 1) ∧
      0 ≤ mortality_overlay_factor examplePolicy exampleAssumptions) ∧
    (expected_number_of_policies_IF examplePolicy exampleAssumptions 4 ≤
        expected_number_of_policies_IF examplePolicy exampleAssumptions 3 ∧
      0 ≤ expected_number_of_policies_IF examplePolicy exampleAssumptions 3 ∧
      expected_number_of_policies_IF examplePolicy exampleAssumptions 3 ≤ 1) := by
  have hq : ∀ a g, 0 ≤ exampleAssumptions.mortality_base_table a g ∧
      exampleAssumptions.mortality_base_table a g ≤ 1 := by
    intro a g
    constructor <;> norm_num [exampleAssumptions]
  have hov : 0 ≤ mortality_overlay_factor examplePolicy exampleAssumptions := by
    norm_num [mortality_overlay_factor, exampleAssumptions]
  exact ⟨⟨hq, hov⟩,
    (C2_survivorship examplePolicy exampleAssumptions hq hov).2 3⟩

/-- C3: the guarantee flag only takes the values 0 and 1, and 0 is
absorbing. -/
theorem C3_guarantee_flag (P : Policy) (t : ℕ) :
    (within_guarantee_period P t = 0 ∨ within_guarantee_period P t = 1) ∧
    (within_guarantee_period P t = 0 →
      within_guarantee_period P (t + 1) = 0) := by
  constructor
  · rw [within_guarantee_period_eq]
    split
    · exact Or.inr rfl
    · exact Or.inl rfl
  · intro h0
    have hstep : within_guarantee_period P (t + 1) =
        if within_guarantee_period P t = 0 then 0
        else if ((P.duration_IF : ℤ) + (t + 1 : ℕ) < P.initial_guarantee_term)
          then 1 else 0 := rfl
    rw [hstep, if_pos h0]

/-- C3 witness: the conclusion at a concrete policy and month. -/
theorem C3_witness :
    (within_guarantee_period examplePolicy 30 = 0 ∨
      within_guarantee_period examplePolicy 30 = 1) ∧
    (within_guarantee_period examplePolicy 30 = 0 →
      within_guarantee_period examplePolicy 31 = 0) :=
  C3_guarantee_flag examplePolicy 30

/-- C8: `current_age` is non-decreasing, integer-valued by construction
(`current_age : ℕ`), increases by exactly 1 every 12 steps, and in the
Scenario D policy (age at entry 65, zero elapsed duration) equals 65 for
`t = 0..11` and 66 at `t = 12`. -/
theorem C8_current_age :
    (∀ (P : Policy) (t : ℕ), current_age P t ≤ current_age P (t + 1)) ∧
    (∀ (P : Policy) (t : ℕ), current_age P (t + 12) = current_age P t + 1) ∧
    (∀ t, t < 12 → current_age examplePolicy t = 65) ∧
    current_age examplePolicy 12 = 66 := by
  refine ⟨?_, ?_, ?_, ?_⟩
  · intro P t
    rw [current_age_closed, current_age_closed]
    omega
  · intro P t
    rw [current_age_closed, current_age_closed]
    omega
  · intro t ht
    rw [current_age_closed]
    simp only [examplePolicy]
    omega
  · rw [current_age_closed]
    simp only [examplePolicy]

/-- C8 witness: the age at a concrete month inside the first year. -/
theorem C8_witness : current_age examplePolicy 3 = 65 :=
  C8_current_age.2.2.1 3 (by norm_num)

/-- C10: whenever `current_age(t) ≤ max_mortality_age`, the same-age
short-circuit in `death_rate` is a pure optimisation — the value equals
the direct recomputation
`min(1, (1 - (1 - qx(age,gender))^(1/12)) * overlay)` at `t`. -/
theorem C10_short_circuit (P : Policy) (A : Assumptions) (t : ℕ)
    (h : current_age P t ≤ A.max_mortality_age) :
    death_rate P A t =
      min 1 ((1 - (1 - A.mortality_base_table (current_age P t)
        (genderStr P)) ^ ((1 : ℝ) / 12)) * mortality_overlay_factor P A) :=
  death_rate_direct P A t h

/-- C10 witness: the hypothesis holds and the direct-recomputation value
is produced at a concrete policy, assumption set, and month. -/
theorem C10_witness :
    current_age examplePolicy 0 ≤ exampleAssumptions.max_mortality_age ∧
    death_rate examplePolicy exampleAssumptions 0 =
      min 1 ((1 - (1 - exampleAssumptions.mortality_base_table
        (current_age examplePolicy 0) (genderStr examplePolicy)) ^
        ((1 : ℝ) / 12)) *
        mortality_overlay_factor examplePolicy exampleAssumptions) := by
  have h : current_age examplePolicy 0 ≤ exampleAssumptions.max_mortality_age := by
    rw [current_age_closed]
    norm_num [examplePolicy, exampleAssumptions]
  exact ⟨h, C10_short_circuit examplePolicy exampleAssumptions 0 h⟩

/-- C4: for the payment frequencies allowed by the data model, whenever
`(duration_IF + t) mod (12 / annuity_payment_frequency) ≠ 0` the
payment at `t` is 0. -/
theorem C4_payment_months (P : Policy) (A : Assumptions) (t : ℕ)
    (hf : P.annuity_payment_frequency = 1 ∨ P.annuity_payment_frequency = 2 ∨
      P.annuity_payment_frequency = 4 ∨ P.annuity_payment_frequency = 12)
    (h : (P.duration_IF + t) % (12 / P.annuity_payment_frequency) ≠ 0) :
    annuity_payment_per_policy P A t = Except.ok 0 := by
  rw [annuity_payment_per_policy, if_pos h]

/-- C4 witness: the hypotheses hold and a zero payment is produced at a
concrete policy, assumption set, and non-payment month. -/
theorem C4_witness :
    (examplePolicy.annuity_payment_frequency = 1 ∨
      examplePolicy.annuity_payment_frequency = 2 ∨
      examplePolicy.annuity_payment_frequency = 4 ∨
      examplePolicy.annuity_payment_frequency = 12) ∧
    (examplePolicy.duration_IF + 1) %
      (12 / examplePolicy.annuity_payment_frequency) ≠ 0 ∧
    annuity_payment_per_policy examplePolicy exampleAssumptions 1 =
      Except.ok 0 := by
  have hf : examplePolicy.annuity_payment_frequency = 1 ∨
      examplePolicy.annuity_payment_frequency = 2 ∨
      examplePolicy.annuity_payment_frequency = 4 ∨
      examplePolicy.annuity_payment_frequency = 12 := Or.inl rfl
  have h : (examplePolicy.duration_IF + 1) %
      (12 / examplePolicy.annuity_payment_frequency) ≠ 0 := by decide
  exact ⟨hf, h, C4_payment_months examplePolicy exampleAssumptions 1 hf h⟩

/-- C5: under fixed escalation (`escalation_type = 1`), on every payment
month `t ≥ 12` the payment is the payment at `t - 12` times
`(1 + escalation_rate)`, on payment months `t < 12` it is the initial
per-period amount, and in the Scenario B policy (rate 0.03, annuity
1200, annual frequency, zero elapsed duration) the payment at `t = 12`
is 1236. -/
theorem C5_fixed_escalation :
    (∀ (P : Policy) (A : Assumptions) (t : ℕ), P.escalation_type = 1 →
      12 ≤ t →
      (P.duration_IF + t) % (12 / P.annuity_payment_frequency) = 0 →
      annuity_payment_per_policy P A t =
        (annuity_payment_per_policy P A (t - 12)).map
          (fun p => p * (1 + P.escalation_rate))) ∧
    (∀ (P : Policy) (A : Assumptions) (t : ℕ), P.escalation_type = 1 →
      t < 12 →
      (P.duration_IF + t) % (12 / P.annuity_payment_frequency) = 0 →
      annuity_payment_per_policy P A t =
        Except.ok (initial_annuity_per_payment_period P)) ∧
    annuity_payment_per_policy examplePolicy exampleAssumptions 12 =
      Except.ok 1236 := by
  refine ⟨?_, ?_, ?_⟩
  · intro P A t he ht hm
    rw [annuity_payment_per_policy, if_neg (fun hc => hc hm),
      if_neg (by omega), if_pos he, dif_neg (by omega)]
  · intro P A t he ht hm
    rw [annuity_payment_per_policy, if_neg (fun hc => hc hm),
      if_neg (by omega), if_pos he, dif_pos ht]
  · have h0 : annuity_payment_per_policy examplePolicy exampleAssumptions 0 =
        Except.ok (initial_annuity_per_payment_period examplePolicy) := by
      rw [annuity_payment_per_policy, if_neg (by decide),
        if_neg (by decide),
        if_pos (by decide : examplePolicy.escalation_type = 1),
        dif_pos (by decide)]
    rw [annuity_payment_per_policy, if_neg (by decide),
      if_neg (by decide),
      if_pos (by decide : examplePolicy.escalation_type = 1),
      dif_neg (by decide)]
    norm_num
    rw [h0]
    show Except.ok (initial_annuity_per_payment_period examplePolicy *
      (1 + examplePolicy.escalation_rate)) = Except.ok 1236
    norm_num [initial_annuity_per_payment_period, examplePolicy]

/-- C5 witness: the recurrence at the concrete Scenario B policy and the
concrete payment month `t = 12`, with each hypothesis discharged. -/
theorem C5_witness :
    annuity_payment_per_policy examplePolicy exampleAssumptions 12 =
      (annuity_payment_per_policy examplePolicy exampleAssumptions 0).map
        (fun p => p * (1 + examplePolicy.escalation_rate)) :=
  C5_fixed_escalation.1 examplePolicy exampleAssumptions 12 rfl
    (by norm_num) (by decide)

/-- C6 counterexample: with the unsupported `escalation_type = 3` and an
annual payment frequency, `t = 1` is not a payment month and
`annuity_payment_per_policy(1)` returns 0 without raising — the code
does not raise at every `t`. -/
theorem C6_counterexample :
    unsupportedPolicy.escalation_type = 3 ∧
    annuity_payment_per_policy unsupportedPolicy exampleAssumptions 1 =
      Except.ok 0 := by
  refine ⟨rfl, ?_⟩
  rw [annuity_payment_per_policy, if_pos (by decide)]

/-- C6 (amended): on every payment month, an unsupported
`escalation_type` makes `annuity_payment_per_policy` fail with the
unsupported-configuration error identifying the offending value
(non-payment months return 0 before the escalation branch is reached). -/
theorem C6_unsupported_escalation (P : Policy) (A : Assumptions) (t : ℕ)
    (h0 : P.escalation_type ≠ 0) (h1 : P.escalation_type ≠ 1)
    (h2 : P.escalation_type ≠ 2)
    (hm : (P.duration_IF + t) % (12 / P.annuity_payment_frequency) = 0) :
    annuity_payment_per_policy P A t =
      Except.error ("Unsupported escalation_type: " ++
        toString P.escalation_type) := by
  rw [annuity_payment_per_policy, if_neg (fun hc => hc hm),
    if_neg h0, if_neg h1, if_neg h2]

/-- C6 witness: the hypotheses hold and the diagnostic error is produced
at a concrete policy, assumption set, and payment month. -/
theorem C6_witness :
    unsupportedPolicy.escalation_type ≠ 0 ∧
    unsupportedPolicy.escalation_type ≠ 1 ∧
    unsupportedPolicy.escalation_type ≠ 2 ∧
    (unsupportedPolicy.duration_IF + 0) %
      (12 / unsupportedPolicy.annuity_payment_frequency) = 0 ∧
    annuity_payment_per_policy unsupportedPolicy exampleAssumptions 0 =
      Except.error ("Unsupported escalation_type: " ++
        toString unsupportedPolicy.escalation_type) :=
  ⟨by decide, by decide, by decide, by decide,
    C6_unsupported_escalation unsupportedPolicy exampleAssumptions 0
      (by decide) (by decide) (by decide) (by decide)⟩

/-- C7: every entry of the precomputed guarantee array equals the scalar
recurrence at the same month. -/
theorem C7_array_refinement (P : Policy) (T t : ℕ) (h : t ≤ T) :
    (within_guarantee_period_array P T).getD t 0 =
      within_guarantee_period P t := by
  rw [within_guarantee_period_eq, within_guarantee_period_array,
    List.getD_eq_getElem?_getD, List.getElem?_map,
    List.getElem?_range (by omega : t < T + 1)]
  rfl

/-- C7 witness: array and recurrence agree at a concrete policy, horizon,
and month. -/
theorem C7_witness :
    (within_guarantee_period_array examplePolicy 40).getD 25 0 =
      within_guarantee_period examplePolicy 25 :=
  C7_array_refinement examplePolicy 40 25 (by norm_num)

/-- C9: the total-expense present value is the sum of the renewal and
investment expense present values, the liability series is the benefit
present value plus total expenses, and the scalar liability is the
`t = 0` entry of the liability series. -/
theorem C9_aggregation (P : Policy) (A : Assumptions) (T t : ℕ) :
    EPV_total_expenses P A T t =
      EPV_renewal_expenses P A T t + EPV_investment_expenses P A T t ∧
    EPV_liability P A T t =
      EPV_annuity_benefit P A T t + EPV_total_expenses P A T t ∧
    liability P A T = EPV_liability P A T 0 :=
  ⟨rfl, rfl, rfl⟩
